import Mathlib

/-!
Verification of the LBOpenShiftFinder shift-sync engine.

Shallow embedding of the repository's core logic:
* `src/models.py` — `Shift`, `OpenShift`, `SyncedShift`, `SyncState` and their
  `unique_key` properties;
* `src/main.py` (step 5) — the per-category add/remove/keep reconciliation diff;
* `src/ical_parser.py` — `conflicts_with_my_shifts`, the availability filter;
* `src/scraper.py` — `_parse_single_time` / `_parse_times` (time-range
  normalisation) and the cell classification logic of `_extract_open_shifts`;
* `src/state.py` — `load_state` / `save_state` over the persisted JSON state.

Python strings are Lean `String`s, naive datetimes are explicit
year/month/day/hour/minute records compared chronologically, and fallible
paths return `Option` / `Except`.
-/

/-- `Shift` from `src/models.py`: a scheduled shift from the iCal feed.
All fields are strings, exactly as in the dataclass (`date` is `YYYY-MM-DD`,
the two times are ISO 8601 strings). -/
structure Shift where
  date : String
  start_time : String
  end_time : String
  assignment : String
deriving DecidableEq, Repr

/-- `Shift.unique_key`: `f"{date}|{start_time}|{end_time}|{assignment}"`. -/
def Shift.unique_key (s : Shift) : String :=
  s.date ++ "|" ++ s.start_time ++ "|" ++ s.end_time ++ "|" ++ s.assignment

/-- `OpenShift` from `src/models.py`: an open/unassigned shift scraped from the
scheduling grid. -/
structure OpenShift where
  date : String
  start_time : String
  end_time : String
  assignment : String
  label : String
deriving DecidableEq, Repr

/-- `OpenShift.unique_key`:
`f"{date}|{start_time}|{end_time}|{assignment}|{label}"`. -/
def OpenShift.unique_key (s : OpenShift) : String :=
  s.date ++ "|" ++ s.start_time ++ "|" ++ s.end_time ++ "|" ++ s.assignment
    ++ "|" ++ s.label

/-- `SyncedShift` from `src/models.py`: an open shift that has been added to
the remote calendar; adds the remote event id. -/
structure SyncedShift where
  date : String
  start_time : String
  end_time : String
  assignment : String
  label : String
  google_event_id : String
deriving DecidableEq, Repr

/-- `SyncedShift.unique_key`: same five fields as `OpenShift.unique_key`;
the event id is not part of the identity. -/
def SyncedShift.unique_key (s : SyncedShift) : String :=
  s.date ++ "|" ++ s.start_time ++ "|" ++ s.end_time ++ "|" ++ s.assignment
    ++ "|" ++ s.label

/-- `SyncedShift.from_open_shift`: copy all candidate fields and attach the
remote event id. -/
def SyncedShift.from_open_shift (shift : OpenShift) (google_event_id : String) :
    SyncedShift :=
  { date := shift.date
    start_time := shift.start_time
    end_time := shift.end_time
    assignment := shift.assignment
    label := shift.label
    google_event_id := google_event_id }

/-- The per-category reconciliation diff of `src/main.py` lines 99–132.  Each
of the three categories (open / picked / scheduled) runs this same shape with
its own inputs:
* enabled: `to_add` keeps the current shifts whose key is not among the
  previous keys, `to_remove` keeps the previous shifts whose key is not among
  the current keys, `to_keep` the previous shifts whose key is among the
  current keys (`previous_*_keys` is a dict keyed by `unique_key`;
  `current_*_keys` is the set of current keys);
* disabled: `to_add = []`, `to_remove` = the whole previous list,
  `to_keep = []`. -/
def diffShifts (syncEnabled : Bool) (current : List OpenShift)
    (previous : List SyncedShift) :
    List OpenShift × List SyncedShift × List SyncedShift :=
  if syncEnabled then
    let previousKeys := previous.map SyncedShift.unique_key
    let currentKeys := current.map OpenShift.unique_key
    (current.filter (fun s => !(previousKeys.contains s.unique_key)),
     previous.filter (fun s => !(currentKeys.contains s.unique_key)),
     previous.filter (fun s => currentKeys.contains s.unique_key))
  else ([], previous, [])

/-- Concrete synced shift `A` for the worked reconciliation example. -/
def syncedA : SyncedShift :=
  ⟨"2026-02-01", "2026-02-01T08:00:00", "2026-02-01T17:00:00", "R1", "OPEN 1",
   "ev-a"⟩

/-- Concrete synced shift `B` for the worked reconciliation example. -/
def syncedB : SyncedShift :=
  ⟨"2026-02-02", "2026-02-02T08:00:00", "2026-02-02T17:00:00", "R2", "OPEN 1",
   "ev-b"⟩

/-- Candidate shift with the same identity key as `syncedB`. -/
def candB : OpenShift :=
  ⟨"2026-02-02", "2026-02-02T08:00:00", "2026-02-02T17:00:00", "R2", "OPEN 1"⟩

/-- Candidate shift `C`, whose key matches no previously synced shift. -/
def candC : OpenShift :=
  ⟨"2026-02-03", "2026-02-03T08:00:00", "2026-02-03T17:00:00", "R3", "OPEN 1"⟩

/-- C1: with sync enabled, the diff partitions exactly as specified: `toAdd`
are the current shifts whose identity key is absent from the previous key set,
`toRemove` the previous shifts whose key is absent from the current key set,
`toKeep` the previous shifts whose key is present in the current key set; and
on `previousSyncedSet = {A, B}`, `currentSet = {B, C}` it returns
`toAdd = {C}`, `toRemove = {A}`, `toKeep = {B}`. -/
theorem C1_diff_partition :
    (∀ (current : List OpenShift) (previous : List SyncedShift),
      (∀ s, s ∈ (diffShifts true current previous).1 ↔
        s ∈ current ∧ s.unique_key ∉ previous.map SyncedShift.unique_key) ∧
      (∀ s, s ∈ (diffShifts true current previous).2.1 ↔
        s ∈ previous ∧ s.unique_key ∉ current.map OpenShift.unique_key) ∧
      (∀ s, s ∈ (diffShifts true current previous).2.2 ↔
        s ∈ previous ∧ s.unique_key ∈ current.map OpenShift.unique_key)) ∧
    diffShifts true [candB, candC] [syncedA, syncedB] =
      ([candC], [syncedA], [syncedB]) := by
  constructor
  · intro current previous
    refine ⟨?_, ?_, ?_⟩ <;>
      · intro s
        simp [diffShifts, List.contains, List.mem_filter]
  · decide

/-- C7: with sync disabled the diff short-circuits to a full teardown,
regardless of the current set: `toAdd = []`, `toRemove` = the entire previous
set, `toKeep = []` (the `else` branches of `src/main.py` lines 108–112,
119–122 and 129–132, one per category). -/
theorem C7_disabled_full_teardown :
    ∀ (current : List OpenShift) (previous : List SyncedShift),
      diffShifts false current previous = ([], previous, []) := by
  intro current previous
  rfl

/-- A synced shift created from an open shift keeps its identity key
(the event id is not part of the key). -/
theorem from_open_shift_key (s : OpenShift) (eid : String) :
    (SyncedShift.from_open_shift s eid).unique_key = s.unique_key := rfl

/-- C2: the enabled diff is idempotent.  If, after one diff, the persisted
set is replaced by `toKeep` plus the synced versions of `toAdd` (as
`src/main.py` line 156 does via `sync_to_calendar`, which applies
`SyncedShift.from_open_shift` to every added shift), then diffing the same
current set against that new persisted set yields empty `toAdd`, empty
`toRemove`, and `toKeep` equal to the entire new persisted set. -/
theorem C2_diff_idempotent :
    ∀ (current : List OpenShift) (previous : List SyncedShift)
      (eventId : OpenShift → String),
      diffShifts true current
        ((diffShifts true current previous).2.2 ++
          (diffShifts true current previous).1.map
            (fun s => SyncedShift.from_open_shift s (eventId s))) =
      ([], [],
        (diffShifts true current previous).2.2 ++
          (diffShifts true current previous).1.map
            (fun s => SyncedShift.from_open_shift s (eventId s))) := by
  intro current previous eventId
  simp only [diffShifts, if_pos]
  set ck := current.map OpenShift.unique_key with hck
  -- every member of the new persisted set has its key among the current keys
  have hnewKeys :
      ∀ p : SyncedShift,
        p ∈ (previous.filter (fun s => ck.contains s.unique_key) ++
          (current.filter
            (fun s => !((previous.map SyncedShift.unique_key).contains
              s.unique_key))).map
            (fun s => SyncedShift.from_open_shift s (eventId s))) →
        p.unique_key ∈ ck := by
    intro p hp
    rcases List.mem_append.1 hp with hkeep | hadd
    · have := (List.mem_filter.1 hkeep).2
      simpa [List.contains, List.elem_iff] using this
    · rcases List.mem_map.1 hadd with ⟨s, hs, rfl⟩
      have hs' := (List.mem_filter.1 hs).1
      rw [from_open_shift_key]
      exact List.mem_map.2 ⟨s, hs', rfl⟩
  refine Prod.ext ?_ (Prod.ext ?_ ?_)
  · -- second-run toAdd is empty
    simp only
    rw [List.filter_eq_nil_iff]
    intro s hs
    simp only [Bool.not_eq_true', Bool.not_eq_false]
    have hkey : s.unique_key ∈
        ((previous.filter (fun t => ck.contains t.unique_key) ++
          (current.filter
            (fun t => !((previous.map SyncedShift.unique_key).contains
              t.unique_key))).map
            (fun t => SyncedShift.from_open_shift t (eventId t))).map
          SyncedShift.unique_key) := by
      by_cases hprev :
          (previous.map SyncedShift.unique_key).contains s.unique_key = true
      · -- the key was previously synced, so a matching shift is kept
        have : s.unique_key ∈ previous.map SyncedShift.unique_key := by
          simpa [List.contains, List.elem_iff] using hprev
        rcases List.mem_map.1 this with ⟨p, hp, hpk⟩
        have hpkeep : p ∈ previous.filter (fun t => ck.contains t.unique_key) := by
          refine List.mem_filter.2 ⟨hp, ?_⟩
          have : p.unique_key ∈ ck := by
            rw [hpk]; exact List.mem_map.2 ⟨s, hs, rfl⟩
          simpa [List.contains, List.elem_iff] using this
        exact List.mem_map.2 ⟨p, List.mem_append.2 (Or.inl hpkeep), hpk⟩
      · -- the key is new, so its synced version was just added
        have hsadd : s ∈ current.filter
            (fun t => !((previous.map SyncedShift.unique_key).contains
              t.unique_key)) := by
          refine List.mem_filter.2 ⟨hs, ?_⟩
          simp only [Bool.not_eq_true']
          exact Bool.eq_false_iff.mpr hprev
        refine List.mem_map.2
          ⟨SyncedShift.from_open_shift s (eventId s),
           List.mem_append.2 (Or.inr (List.mem_map.2 ⟨s, hsadd, rfl⟩)),
           from_open_shift_key s (eventId s)⟩
    simpa [List.contains, List.elem_iff] using hkey
  · -- second-run toRemove is empty
    simp only
    rw [List.filter_eq_nil_iff]
    intro p hp
    have := hnewKeys p hp
    simp [List.contains, List.elem_iff, this]
  · -- second-run toKeep is the whole new persisted set
    simp only
    rw [List.filter_eq_self]
    intro p hp
    have := hnewKeys p hp
    simpa [List.contains, List.elem_iff] using this

/-- First record of the key-collision pair for `Shift`: the `end_time`
field contains the join character. -/
def shiftCollide1 : Shift := ⟨"2026-03-01", "08:00", "17:00|R9", "R1"⟩

/-- Second record of the key-collision pair for `Shift`: different field
values, same joined key. -/
def shiftCollide2 : Shift := ⟨"2026-03-01", "08:00", "17:00", "R9|R1"⟩

/-- First record of the key-collision pair for `OpenShift`. -/
def openCollide1 : OpenShift := ⟨"2026-03-01", "08:00", "17:00", "R9|OPEN 1", "X"⟩

/-- Second record of the key-collision pair for `OpenShift`. -/
def openCollide2 : OpenShift := ⟨"2026-03-01", "08:00", "17:00", "R9", "OPEN 1|X"⟩

/-- Synced version of `openCollide1`. -/
def syncedCollide1 : SyncedShift :=
  SyncedShift.from_open_shift openCollide1 "ev-1"

/-- Synced version of `openCollide2` under a different event id. -/
def syncedCollide2 : SyncedShift :=
  SyncedShift.from_open_shift openCollide2 "ev-2"

/-- C10: every `unique_key` is the '|'-join of the record's identity fields,
and the encoding is not injective: for each of `Shift`, `OpenShift` and
`SyncedShift` two records with different field tuples share one key, and the
reconciliation diff consequently treats them as the same shift (a current set
holding one of the pair keeps the persisted entry of the other). -/
theorem C10_unique_key_not_injective :
    (∀ s : Shift, s.unique_key =
      s.date ++ "|" ++ s.start_time ++ "|" ++ s.end_time ++ "|" ++ s.assignment) ∧
    (shiftCollide1.unique_key = shiftCollide2.unique_key ∧
      shiftCollide1 ≠ shiftCollide2) ∧
    (openCollide1.unique_key = openCollide2.unique_key ∧
      openCollide1 ≠ openCollide2) ∧
    (syncedCollide1.unique_key = syncedCollide2.unique_key ∧
      syncedCollide1 ≠ syncedCollide2) ∧
    diffShifts true [openCollide2] [syncedCollide1] =
      ([], [], [syncedCollide1]) := by
  refine ⟨fun s => rfl, ?_, ?_, ?_, ?_⟩ <;> decide

/-- Gregorian leap-year test (as used by Python's `datetime`). -/
def isLeapYear (y : Nat) : Bool :=
  (y % 4 == 0 && y % 100 != 0) || y % 400 == 0

/-- Number of days in month `m` (1–12) of year `y`. -/
def daysInMonth (y m : Nat) : Nat :=
  if m = 2 then (if isLeapYear y then 29 else 28)
  else if m = 4 ∨ m = 6 ∨ m = 9 ∨ m = 11 then 30
  else 31

/-- Days in the months strictly before month `m` of year `y`. -/
def daysBeforeMonth (y : Nat) : Nat → Nat
  | 0 => 0
  | 1 => 0
  | m + 2 => daysBeforeMonth y (m + 1) + daysInMonth y (m + 1)

/-- A calendar date, as Python's `datetime.date` (year/month/day). -/
structure Date where
  year : Nat
  month : Nat
  day : Nat
deriving DecidableEq, Repr

/-- The constructibility condition of Python's `datetime.date`: `replace`
raises `ValueError` exactly when this fails. -/
def Date.valid (d : Date) : Bool :=
  1 ≤ d.month && d.month ≤ 12 && 1 ≤ d.day && d.day ≤ daysInMonth d.year d.month

/-- Day count from the proleptic-Gregorian epoch.  On valid dates this is
strictly monotone in (year, month, day), so comparing day numbers is exactly
Python's `date` comparison on every date the code can construct. -/
def Date.toDayNumber (d : Date) : Nat :=
  365 * (d.year - 1) + (d.year - 1) / 4 - (d.year - 1) / 100 + (d.year - 1) / 400
    + daysBeforeMonth d.year d.month + (d.day - 1)

/-- Python `date` comparison `a < b` (chronological). -/
def Date.isBefore (a b : Date) : Bool :=
  decide (a.toDayNumber < b.toDayNumber)

/-- A naive local datetime, as the Python `datetime` values the engine
compares (minute precision: the parsed times all have zero seconds). -/
structure DateTime where
  year : Nat
  month : Nat
  day : Nat
  hour : Nat
  minute : Nat
deriving DecidableEq, Repr

/-- Minutes from the epoch; Python `datetime` comparison and `timedelta`
subtraction on the code's (valid) datetimes coincide with comparison and
subtraction of this count. -/
def DateTime.toMinutes (dt : DateTime) : Nat :=
  (Date.toDayNumber ⟨dt.year, dt.month, dt.day⟩) * 1440 + dt.hour * 60 + dt.minute

/-- `conflicts_with_my_shifts` from `src/ical_parser.py` lines 109–149:
a candidate open shift `[open_start, open_end)` conflicts when some committed
shift `(s_start, s_end)` overlaps it (`o_start < s_end and s_start < o_end`),
or follows it with a gap `s_start - o_end` under `MIN_REST_HOURS` (guarded by
`o_end <= s_start`), or precedes it with a gap `o_start - s_end` under
`MIN_REST_HOURS` (guarded by `s_end <= o_start`).  `MIN_REST_HOURS` is the
environment-configured constant, here the parameter `min_rest_hours`. -/
def conflicts_with_my_shifts (min_rest_hours : Nat)
    (open_start open_end : DateTime) (my_shifts : List (DateTime × DateTime)) :
    Bool :=
  my_shifts.any fun sh =>
    decide (open_start.toMinutes < sh.2.toMinutes ∧
      sh.1.toMinutes < open_end.toMinutes) ||
    decide (open_end.toMinutes ≤ sh.1.toMinutes ∧
      (sh.1.toMinutes : Int) - open_end.toMinutes < min_rest_hours * 60) ||
    decide (sh.2.toMinutes ≤ open_start.toMinutes ∧
      (open_start.toMinutes : Int) - sh.2.toMinutes < min_rest_hours * 60)

/-- The spec's description of the availability filter: a conflict is an
overlap under the half-open test, or a rest gap strictly below the minimum
between the end of one shift and the start of the other, in either
direction. -/
def conflictSpec (min_rest_hours : Nat) (open_start open_end : DateTime)
    (my_shifts : List (DateTime × DateTime)) : Prop :=
  ∃ sh ∈ my_shifts,
    (open_start.toMinutes < sh.2.toMinutes ∧
      sh.1.toMinutes < open_end.toMinutes) ∨
    (open_end.toMinutes ≤ sh.1.toMinutes ∧
      (sh.1.toMinutes : Int) - open_end.toMinutes < min_rest_hours * 60) ∨
    (sh.2.toMinutes ≤ open_start.toMinutes ∧
      (open_start.toMinutes : Int) - sh.2.toMinutes < min_rest_hours * 60)

set_option maxRecDepth 4096 in
/-- C3: the availability filter reports a conflict exactly when some committed
shift overlaps the candidate under the half-open test or leaves a rest gap
strictly below the minimum in either direction; and the worked example —
candidate 18:00–23:00 against committed 23:00–07:00 the next day — is
eligible with zero minimum rest (touching boundaries do not overlap) and
ineligible with a minimum rest of 8 hours (zero gap). -/
theorem C3_conflict_characterisation :
    (∀ (min_rest_hours : Nat) (open_start open_end : DateTime)
        (my_shifts : List (DateTime × DateTime)),
      conflicts_with_my_shifts min_rest_hours open_start open_end my_shifts =
          true ↔
        conflictSpec min_rest_hours open_start open_end my_shifts) ∧
    conflicts_with_my_shifts 0 ⟨2026, 2, 18, 18, 0⟩ ⟨2026, 2, 18, 23, 0⟩
      [(⟨2026, 2, 18, 23, 0⟩, ⟨2026, 2, 19, 7, 0⟩)] = false ∧
    conflicts_with_my_shifts 8 ⟨2026, 2, 18, 18, 0⟩ ⟨2026, 2, 18, 23, 0⟩
      [(⟨2026, 2, 18, 23, 0⟩, ⟨2026, 2, 19, 7, 0⟩)] = true := by
  refine ⟨?_, by decide, by decide⟩
  intro min_rest_hours open_start open_end my_shifts
  simp only [conflicts_with_my_shifts, conflictSpec, List.any_eq_true,
    Bool.or_eq_true, decide_eq_true_eq]
  constructor
  · rintro ⟨sh, hsh, hcase⟩
    exact ⟨sh, hsh, or_assoc.mp hcase⟩
  · rintro ⟨sh, hsh, hcase⟩
    exact ⟨sh, hsh, or_assoc.mpr hcase⟩

/-- An `am`/`pm` marker captured by the time regex (a single `a`/`p` is
normalised to `AM`/`PM` before parsing). -/
inductive Meridiem where
  | am
  | pm
deriving DecidableEq, Repr

/-- One time token captured by the range regexes of `_parse_times`
(`src/scraper.py` lines 559–570): `H:MM` digits plus an optional meridiem
marker (present for the 12-hour regex, absent for the 24-hour fallback). -/
structure TimeTok where
  hour : Nat
  minute : Nat
  meridiem : Option Meridiem
deriving DecidableEq, Repr

/-- `_parse_single_time` from `src/scraper.py` lines 510–540, on a captured
token: with a meridiem the token must parse as `%I:%M %p` (hour 1–12,
minute 0–59; 12 AM ↦ 0, 12 PM ↦ 12, otherwise PM adds 12); without one it
must parse as 24-hour `%H:%M` (hour 0–23, minute 0–59).  Returns the
24-hour (hour, minute) pair, or `none` when no format matches. -/
def parse_single_time (t : TimeTok) : Option (Nat × Nat) :=
  match t.meridiem with
  | some mer =>
      if 1 ≤ t.hour ∧ t.hour ≤ 12 ∧ t.minute ≤ 59 then
        match mer with
        | .am => some (t.hour % 12, t.minute)
        | .pm => some (t.hour % 12 + 12, t.minute)
      else none
  | none =>
      if t.hour ≤ 23 ∧ t.minute ≤ 59 then some (t.hour, t.minute) else none

/-- `_parse_times` from `src/scraper.py` lines 543–598, after the range regex
has captured a start token, an end token and an optional parenthesized
`MM/DD` end-date suffix; `shift_date` is the anchor date (already parsed from
`YYYY-MM-DD`, hence valid).  Mirrors the source:
* if either token fails `_parse_single_time`, return `(None, None)`
  (modelled `Except.ok none`);
* without a suffix, start and end both sit on the anchor date;
* with a suffix, `end_base = start_base.replace(month=end_month, day=end_day)`
  (`ValueError`, modelled `Except.error ()`, when that is not a valid date),
  and if `end_base < start_base` the year is bumped by one
  (`replace(year=end_base.year + 1)`, again `ValueError` when invalid). -/
def parse_times (startTok endTok : TimeTok) (suffix : Option (Nat × Nat))
    (shift_date : Date) : Except Unit (Option (DateTime × DateTime)) :=
  match parse_single_time startTok, parse_single_time endTok with
  | some (sH, sM), some (eH, eM) =>
      let start_dt : DateTime :=
        ⟨shift_date.year, shift_date.month, shift_date.day, sH, sM⟩
      match suffix with
      | some (endMonth, endDay) =>
          if Date.valid ⟨shift_date.year, endMonth, endDay⟩ then
            if Date.isBefore ⟨shift_date.year, endMonth, endDay⟩ shift_date then
              if Date.valid ⟨shift_date.year + 1, endMonth, endDay⟩ then
                Except.ok (some (start_dt,
                  ⟨shift_date.year + 1, endMonth, endDay, eH, eM⟩))
              else Except.error ()
            else Except.ok (some (start_dt,
              ⟨shift_date.year, endMonth, endDay, eH, eM⟩))
          else Except.error ()
      | none =>
          Except.ok (some (start_dt,
            ⟨shift_date.year, shift_date.month, shift_date.day, eH, eM⟩))
  | _, _ => Except.ok none

/-- C5 counterexample: the valid 12-hour range `9:00pm – 7:00am` with no date
suffix parses successfully, both instants sit on the anchor date, but the
start is 21:00 and the end 07:00 of the same day — the end precedes the
start, refuting `start ≤ end`. -/
theorem C5_overnight_no_suffix_counterexample :
    parse_times ⟨9, 0, some Meridiem.pm⟩ ⟨7, 0, some Meridiem.am⟩ none
        ⟨2026, 2, 18⟩ =
      Except.ok (some (⟨2026, 2, 18, 21, 0⟩, ⟨2026, 2, 18, 7, 0⟩)) ∧
    ¬((⟨2026, 2, 18, 21, 0⟩ : DateTime).toMinutes ≤
        (⟨2026, 2, 18, 7, 0⟩ : DateTime).toMinutes) := by
  exact ⟨rfl, by decide⟩

/-- C5 (amended): for every valid 12-hour time range with no parenthesized
date suffix, both returned instants fall on the anchor calendar date, and
the start precedes (or equals) the end exactly when the parsed start
time-of-day is at most the parsed end time-of-day — `start ≤ end` holds for
ranges like `8:00am – 5:00pm` but not for overnight-looking ranges like
`9:00pm – 7:00am`, which the code leaves on one day with end before start. -/
theorem C5_no_suffix_same_day :
    ∀ (sH sM : Nat) (sMer : Meridiem) (eH eM : Nat) (eMer : Meridiem)
      (anchor : Date) (s e : DateTime),
      parse_times ⟨sH, sM, some sMer⟩ ⟨eH, eM, some eMer⟩ none anchor =
        Except.ok (some (s, e)) →
      s.year = anchor.year ∧ s.month = anchor.month ∧ s.day = anchor.day ∧
      e.year = anchor.year ∧ e.month = anchor.month ∧ e.day = anchor.day ∧
      (s.toMinutes ≤ e.toMinutes ↔
        s.hour * 60 + s.minute ≤ e.hour * 60 + e.minute) := by
  intro sH sM sMer eH eM eMer anchor s e h
  unfold parse_times at h
  cases h1 : parse_single_time ⟨sH, sM, some sMer⟩ with
  | none => rw [h1] at h; simp at h
  | some p1 =>
    cases h2 : parse_single_time ⟨eH, eM, some eMer⟩ with
    | none => rw [h1, h2] at h; simp at h
    | some p2 =>
      rcases p1 with ⟨a, b⟩
      rcases p2 with ⟨c, d⟩
      rw [h1, h2] at h
      simp only [Except.ok.injEq, Option.some.injEq, Prod.mk.injEq] at h
      obtain ⟨rfl, rfl⟩ := h
      refine ⟨rfl, rfl, rfl, rfl, rfl, rfl, ?_⟩
      simp [DateTime.toMinutes]
      omega

/-- Witness for C5 on the concrete range `8:00am – 5:00pm`, anchor
2026-02-18: start 08:00 and end 17:00 both on the anchor date, with
`start ≤ end`. -/
theorem C5_no_suffix_same_day_witness :
    (⟨2026, 2, 18, 8, 0⟩ : DateTime).year = (⟨2026, 2, 18⟩ : Date).year ∧
    (⟨2026, 2, 18, 8, 0⟩ : DateTime).month = (⟨2026, 2, 18⟩ : Date).month ∧
    (⟨2026, 2, 18, 8, 0⟩ : DateTime).day = (⟨2026, 2, 18⟩ : Date).day ∧
    (⟨2026, 2, 18, 17, 0⟩ : DateTime).year = (⟨2026, 2, 18⟩ : Date).year ∧
    (⟨2026, 2, 18, 17, 0⟩ : DateTime).month = (⟨2026, 2, 18⟩ : Date).month ∧
    (⟨2026, 2, 18, 17, 0⟩ : DateTime).day = (⟨2026, 2, 18⟩ : Date).day ∧
    ((⟨2026, 2, 18, 8, 0⟩ : DateTime).toMinutes ≤
        (⟨2026, 2, 18, 17, 0⟩ : DateTime).toMinutes ↔
      (⟨2026, 2, 18, 8, 0⟩ : DateTime).hour * 60 +
          (⟨2026, 2, 18, 8, 0⟩ : DateTime).minute ≤
        (⟨2026, 2, 18, 17, 0⟩ : DateTime).hour * 60 +
          (⟨2026, 2, 18, 17, 0⟩ : DateTime).minute) :=
  C5_no_suffix_same_day 8 0 Meridiem.am 5 0 Meridiem.pm ⟨2026, 2, 18⟩
    ⟨2026, 2, 18, 8, 0⟩ ⟨2026, 2, 18, 17, 0⟩ rfl

/-- C9: whenever `_parse_times` succeeds on a range carrying a parenthesized
`MM/DD` end-date suffix, the end instant carries exactly that month and day,
and its year is the anchor year — bumped by one exactly when the suffix date,
read in the anchor year, falls chronologically before the anchor date. -/
theorem C9_suffix_year_inference :
    ∀ (startTok endTok : TimeTok) (endMonth endDay : Nat) (anchor : Date)
      (s e : DateTime),
      parse_times startTok endTok (some (endMonth, endDay)) anchor =
        Except.ok (some (s, e)) →
      e.month = endMonth ∧ e.day = endDay ∧
      e.year = (if Date.isBefore ⟨anchor.year, endMonth, endDay⟩ anchor
        then anchor.year + 1 else anchor.year) := by
  intro startTok endTok endMonth endDay anchor s e h
  unfold parse_times at h
  cases h1 : parse_single_time startTok with
  | none => rw [h1] at h; simp at h
  | some p1 =>
    cases h2 : parse_single_time endTok with
    | none => rw [h1, h2] at h; simp at h
    | some p2 =>
      rcases p1 with ⟨a, b⟩
      rcases p2 with ⟨c, d⟩
      rw [h1, h2] at h
      dsimp only at h
      by_cases hv : Date.valid ⟨anchor.year, endMonth, endDay⟩ = true
      · rw [if_pos hv] at h
        by_cases hb :
            Date.isBefore ⟨anchor.year, endMonth, endDay⟩ anchor = true
        · rw [if_pos hb] at h
          by_cases hv2 : Date.valid ⟨anchor.year + 1, endMonth, endDay⟩ = true
          · rw [if_pos hv2] at h
            simp only [Except.ok.injEq, Option.some.injEq, Prod.mk.injEq] at h
            obtain ⟨rfl, rfl⟩ := h
            exact ⟨rfl, rfl, by rw [if_pos hb]⟩
          · rw [if_neg hv2] at h; simp at h
        · rw [if_neg hb] at h
          simp only [Except.ok.injEq, Option.some.injEq, Prod.mk.injEq] at h
          obtain ⟨rfl, rfl⟩ := h
          refine ⟨rfl, rfl, ?_⟩
          rw [if_neg hb]
      · rw [if_neg hv] at h; simp at h

/-- Witness for C9 on anchor 2026-12-31 with suffix `01/01` and range
`9:00pm – 7:00am`: January 1 read in the anchor year precedes the anchor, so
the returned end instant lands in 2027 = anchor year + 1. -/
theorem C9_suffix_year_inference_witness :
    (⟨2027, 1, 1, 7, 0⟩ : DateTime).month = 1 ∧
    (⟨2027, 1, 1, 7, 0⟩ : DateTime).day = 1 ∧
    (⟨2027, 1, 1, 7, 0⟩ : DateTime).year =
      (if Date.isBefore ⟨2026, 1, 1⟩ ⟨2026, 12, 31⟩ then 2026 + 1
        else 2026) :=
  C9_suffix_year_inference ⟨9, 0, some Meridiem.pm⟩ ⟨7, 0, some Meridiem.am⟩
    1 1 ⟨2026, 12, 31⟩ ⟨2026, 12, 31, 21, 0⟩ ⟨2027, 1, 1, 7, 0⟩ rfl

/-- Classification of one grid cell by `_extract_open_shifts`
(`src/scraper.py` lines 429–447). -/
inductive CellClass where
  | notShift
  | isOpen
  | pickedByMe
  | takenByOther
deriving DecidableEq, Repr

/-- ASCII upper-casing of one character, the alphabet on which
`re.IGNORECASE` acts for the literal pattern `OPEN`. -/
def upperAscii (c : Char) : Char :=
  if 'a' ≤ c ∧ c ≤ 'z' then Char.ofNat (c.toNat - 32) else c

/-- ASCII upper-casing of a string (character-wise). -/
def strUpper (s : String) : String := ⟨s.data.map upperAscii⟩

/-- Python `str.strip()`: drop leading and trailing whitespace. -/
def stripChars (cs : List Char) : List Char :=
  ((cs.dropWhile Char.isWhitespace).reverse.dropWhile Char.isWhitespace).reverse

/-- The cell label: first line of the cell text, stripped
(`cell_text.split("\n")[0].strip()`, line 430). -/
def cellLabel (cellText : String) : String :=
  ⟨stripChars (cellText.data.takeWhile (fun c => !(c == '\n')))⟩

/-- Embeds `re.match(r"OPEN\s*\d*", label, re.IGNORECASE)` (line 433).
`re.match` anchors only at the start, and both `\s*` and `\d*` match the
empty string, so the match succeeds exactly when the label starts with
`OPEN` in any letter case. -/
def matchOpenLabel (label : String) : Bool :=
  "OPEN".data.isPrefixOf (strUpper label).data

/-- The spec-side candidate test, from the words of the claim: the label is
`OPEN` optionally followed by a number (case-insensitive), i.e. nothing but
optional whitespace and digits may follow `OPEN`. -/
def specOpenLabel (label : String) : Bool :=
  "OPEN".data.isPrefixOf (strUpper label).data &&
    (((strUpper label).data.drop 4).dropWhile Char.isWhitespace).all Char.isDigit

/-- The cell classification of `src/scraper.py` lines 429–447.  `reSearch`
abstracts Python's `re.search` with `re.IGNORECASE` (an external regex
engine); `namePattern` is `MY_NAME_PATTERN`, whose truthiness (non-emptiness)
gates the picked-by-me check:
* a label not matching the `OPEN` prefix pattern is not a shift cell;
* with the `pending-chg` markup class, the cell is picked-by-me when a
  non-empty pattern matches the full cell text, otherwise taken by someone
  else (skipped via `continue`);
* without the pending flag the cell is an open shift. -/
def classify (reSearch : String → String → Bool) (namePattern : String)
    (cellText : String) (pendingChange : Bool) : CellClass :=
  if matchOpenLabel (cellLabel cellText) then
    if pendingChange then
      if namePattern != "" && reSearch namePattern cellText then
        CellClass.pickedByMe
      else CellClass.takenByOther
    else CellClass.isOpen
  else CellClass.notShift

/-- C6 counterexample: the cell text `OPENING` does not match "`OPEN`
optionally followed by a number", yet the code treats it as a shift candidate
and classifies it as an open shift, because `re.match` only anchors the
pattern at the start of the label. -/
theorem C6_open_prefix_counterexample :
    specOpenLabel (cellLabel "OPENING") = false ∧
    classify (fun _ _ => false) "" "OPENING" false = CellClass.isOpen := by
  exact ⟨by decide, by decide⟩

/-- C6 (amended): a cell is a shift candidate iff its label starts with
`OPEN` case-insensitively (the unanchored-suffix regex also admits labels
like `OPENING`); among shift cells, one carrying the pending-change flag is
PickedByMe exactly when the name pattern is non-empty and matches the full
cell text, and TakenByOther otherwise (in particular whenever the pattern is
empty); without the flag the cell is Open regardless of the pattern. -/
theorem C6_classify_characterisation :
    ∀ (reSearch : String → String → Bool) (namePattern cellText : String)
      (pendingChange : Bool),
      (classify reSearch namePattern cellText pendingChange =
          CellClass.notShift ↔
        matchOpenLabel (cellLabel cellText) = false) ∧
      (classify reSearch namePattern cellText pendingChange =
          CellClass.isOpen ↔
        matchOpenLabel (cellLabel cellText) = true ∧ pendingChange = false) ∧
      (classify reSearch namePattern cellText pendingChange =
          CellClass.pickedByMe ↔
        matchOpenLabel (cellLabel cellText) = true ∧ pendingChange = true ∧
          namePattern ≠ "" ∧ reSearch namePattern cellText = true) ∧
      (classify reSearch namePattern cellText pendingChange =
          CellClass.takenByOther ↔
        matchOpenLabel (cellLabel cellText) = true ∧ pendingChange = true ∧
          (namePattern = "" ∨ reSearch namePattern cellText = false)) := by
  intro reSearch namePattern cellText pendingChange
  by_cases h1 : matchOpenLabel (cellLabel cellText) = true <;>
    cases hp : pendingChange <;>
      by_cases h2 : namePattern = "" <;>
        cases hr : reSearch namePattern cellText <;>
          simp [classify, h1, h2, hr, bne_iff_ne]

/-- A JSON value, the result of a successful `json.loads`. -/
inductive Json where
  | null
  | str (s : String)
  | num (n : Int)
  | boolean (b : Bool)
  | arr (items : List Json)
  | obj (fields : List (String × Json))

/-- The Python exceptions that can arise while loading the state file. -/
inductive PyExc where
  | jsonDecodeError
  | keyError
  | typeError
  | attributeError
deriving DecidableEq, Repr

/-- `SyncState` from `src/models.py` lines 61–84: the persisted snapshot as
the dataclass actually defines it — a last-run timestamp and the single
collection `synced_shifts`.  (Its callers in `src/main.py` and `src/state.py`
additionally expect `picked_shifts` and `scheduled_shifts` attributes, which
this dataclass does not have.) -/
structure SyncState where
  last_run : Option String := none
  synced_shifts : List SyncedShift := []
deriving DecidableEq, Repr

/-- `dataclasses.asdict` of a `SyncedShift`, as serialized by
`SyncState.to_json`. -/
def SyncedShift.toJson (s : SyncedShift) : Json :=
  Json.obj
    [("date", Json.str s.date),
     ("start_time", Json.str s.start_time),
     ("end_time", Json.str s.end_time),
     ("assignment", Json.str s.assignment),
     ("label", Json.str s.label),
     ("google_event_id", Json.str s.google_event_id)]

/-- `SyncState.to_json` from `src/models.py` lines 67–74: a JSON object with
exactly the two keys `last_run` and `synced_shifts`. -/
def SyncState.to_json (st : SyncState) : Json :=
  Json.obj
    [("last_run", match st.last_run with
        | none => Json.null
        | some s => Json.str s),
     ("synced_shifts", Json.arr (st.synced_shifts.map SyncedShift.toJson))]

/-- `dict.get(key)`: the value bound to the first occurrence of `key`, or
`None` when absent. -/
def jsonGet (fields : List (String × Json)) (key : String) : Option Json :=
  (fields.find? (fun kv => kv.1 == key)).map (fun kv => kv.2)

/-- `SyncedShift(**s)` on a parsed JSON object: Python raises `TypeError`
unless the keyword names are exactly the six dataclass fields (missing
required arguments or unexpected keywords both raise `TypeError`).  The
dataclass performs no type validation; the model requires string values, the
only shape this tool ever writes. -/
def SyncedShift.fromKwargs (kw : List (String × Json)) :
    Except PyExc SyncedShift :=
  match jsonGet kw "date", jsonGet kw "start_time", jsonGet kw "end_time",
      jsonGet kw "assignment", jsonGet kw "label",
      jsonGet kw "google_event_id" with
  | some (Json.str d), some (Json.str s), some (Json.str e),
      some (Json.str a), some (Json.str l), some (Json.str g) =>
      if kw.length == 6 then Except.ok ⟨d, s, e, a, l, g⟩
      else Except.error PyExc.typeError
  | _, _, _, _, _, _ => Except.error PyExc.typeError

/-- The list comprehension
`[SyncedShift(**s) for s in parsed.get("synced_shifts", [])]`: built left to
right, the first raised exception propagating.  A non-object item raises
`TypeError` inside `SyncedShift(**s)`. -/
def buildSyncedShifts : List Json → Except PyExc (List SyncedShift)
  | [] => Except.ok []
  | it :: rest =>
      match (match it with
        | Json.obj kw => SyncedShift.fromKwargs kw
        | _ => Except.error PyExc.typeError) with
      | Except.ok s =>
          match buildSyncedShifts rest with
          | Except.ok ss => Except.ok (s :: ss)
          | Except.error e => Except.error e
      | Except.error e => Except.error e

/-- `SyncState.from_json` from `src/models.py` lines 76–84, applied to an
already-decoded JSON value:
* a non-object document makes `parsed.get` raise `AttributeError`;
* `last_run` is `parsed.get("last_run")` (absent ⇒ `None`; the dataclass
  stores the value unvalidated — the model keeps string stamps and collapses
  other shapes, which the tool never writes, to `none`);
* `synced_shifts` defaults to `[]` when absent; a non-list value makes the
  comprehension raise `TypeError` when it iterates or unpacks its items. -/
def SyncState.from_json (j : Json) : Except PyExc SyncState :=
  match j with
  | Json.obj fields =>
      let lr : Option String :=
        match jsonGet fields "last_run" with
        | some (Json.str s) => some s
        | _ => none
      match jsonGet fields "synced_shifts" with
      | none => Except.ok { last_run := lr, synced_shifts := [] }
      | some (Json.arr items) =>
          match buildSyncedShifts items with
          | Except.ok shifts =>
              Except.ok { last_run := lr, synced_shifts := shifts }
          | Except.error e => Except.error e
      | some _ => Except.error PyExc.typeError
  | _ => Except.error PyExc.attributeError

/-- The observable states of the persisted file for `load_state`. -/
inductive FileState where
  | missing
  | malformed
  | content (j : Json)

/-- `load_state` from `src/state.py` lines 16–32: a missing file yields the
empty state; the `try` block catches only `json.JSONDecodeError` (file
present but not JSON, here `FileState.malformed`) and `KeyError`, resetting
to the empty state; every other exception raised while building the state
propagates.  (The `logger.info` call on the success path, which touches the
attributes missing from `SyncState`, is outside this model — logging is out
of the engine's scope.) -/
def load_state (fs : FileState) : Except PyExc SyncState :=
  match fs with
  | FileState.missing => Except.ok {}
  | FileState.malformed => Except.ok {}
  | FileState.content j =>
      match SyncState.from_json j with
      | Except.ok st => Except.ok st
      | Except.error PyExc.jsonDecodeError => Except.ok {}
      | Except.error PyExc.keyError => Except.ok {}
      | Except.error e => Except.error e

/-- Top-level keys of a serialized JSON object. -/
def jsonTopKeys (j : Json) : List String :=
  match j with
  | Json.obj fields => fields.map (fun kv => kv.1)
  | _ => []

/-- Deserializing the serialized form of each synced shift recovers it
exactly. -/
theorem buildSyncedShifts_toJson (l : List SyncedShift) :
    buildSyncedShifts (l.map SyncedShift.toJson) = Except.ok l := by
  induction l with
  | nil => rfl
  | cons s t ih =>
      simp only [List.map_cons, buildSyncedShifts]
      rw [show (match SyncedShift.toJson s with
            | Json.obj kw => SyncedShift.fromKwargs kw
            | _ => Except.error PyExc.typeError) = Except.ok s from rfl]
      rw [ih]

/-- C4: the persisted state record serializes exactly the two keys
`last_run` and `synced_shifts` — the JSON form never contains a
`picked_shifts` or `scheduled_shifts` collection — and what it does
serialize (the timestamp and the single open-shift collection) round-trips
exactly. -/
theorem C4_state_serializes_one_collection :
    ∀ st : SyncState,
      jsonTopKeys (SyncState.to_json st) = ["last_run", "synced_shifts"] ∧
      ("picked_shifts" ∉ jsonTopKeys (SyncState.to_json st) ∧
        "scheduled_shifts" ∉ jsonTopKeys (SyncState.to_json st)) ∧
      SyncState.from_json (SyncState.to_json st) = Except.ok st := by
  intro st
  rcases st with ⟨lr, shifts⟩
  refine ⟨rfl,
    ⟨(by decide : ("picked_shifts" : String) ∉
        (["last_run", "synced_shifts"] : List String)),
      (by decide : ("scheduled_shifts" : String) ∉
        (["last_run", "synced_shifts"] : List String))⟩, ?_⟩
  cases lr with
  | none =>
      simp only [SyncState.to_json, SyncState.from_json, jsonGet]
      rw [show ((([(("last_run" : String), Json.null),
        ("synced_shifts", Json.arr (shifts.map SyncedShift.toJson))]).find?
          (fun kv => kv.1 == "synced_shifts")).map (fun kv => kv.2)) =
        some (Json.arr (shifts.map SyncedShift.toJson)) from rfl]
      dsimp only
      rw [buildSyncedShifts_toJson]
      rfl
  | some stamp =>
      simp only [SyncState.to_json, SyncState.from_json, jsonGet]
      rw [show ((([(("last_run" : String), Json.str stamp),
        ("synced_shifts", Json.arr (shifts.map SyncedShift.toJson))]).find?
          (fun kv => kv.1 == "synced_shifts")).map (fun kv => kv.2)) =
        some (Json.arr (shifts.map SyncedShift.toJson)) from rfl]
      dsimp only
      rw [buildSyncedShifts_toJson]
      rfl

/-- C8: `load_state` recovers the empty state from a missing file and from a
file that is not JSON (`json.JSONDecodeError` is caught) — but a file that is
valid JSON whose `synced_shifts` entries are not valid records (here
`{"synced_shifts": [{}]}`, a record missing every required field) raises
`TypeError`, which the `except (json.JSONDecodeError, KeyError)` clause does
not catch, so the load fails instead of resetting to the empty state. -/
theorem C8_load_state_uncaught_typeerror :
    load_state FileState.missing = Except.ok {} ∧
    load_state FileState.malformed = Except.ok {} ∧
    load_state (FileState.content (Json.obj
        [("synced_shifts", Json.arr [Json.obj []])])) =
      Except.error PyExc.typeError := by
  exact ⟨rfl, rfl, rfl⟩
